import Mathlib

set_option maxRecDepth 100000

/-!
Verification of the reconciliation core of the oregon-trail rental-listing
collector: the record model (src/models.py), the hash-based manual-edit
detection and selective merge (src/sheets.py), and the local fact cache
(src/cache.py together with the field-hash store described by the spec).

Machine integers are modelled as Nat with explicit reduction modulo 2^32
where the MD5 computation overflows; Python strings are Lean Strings;
Python None is Option.none; Python datetime values are carried as their
isoformat strings, which is the only form the code ever serializes.
-/

namespace OregonTrail

/-! ## MD5 (hashlib.md5, as used by models.RentalListing._hash_field)

The repository hashes field values with hashlib.md5(value.encode(
"utf-8")).hexdigest()[:8].  The full MD5 algorithm (RFC 1321) is
implemented here over lists of byte values (Nat below 256), with 32-bit
state words kept as Nat reduced modulo 2^32 at every step. -/

namespace Md5

/-- The 64 per-round sine-derived constants of RFC 1321. -/
def K : List Nat :=
  [0xd76aa478, 0xe8c7b756, 0x242070db, 0xc1bdceee,
   0xf57c0faf, 0x4787c62a, 0xa8304613, 0xfd469501,
   0x698098d8, 0x8b44f7af, 0xffff5bb1, 0x895cd7be,
   0x6b901122, 0xfd987193, 0xa679438e, 0x49b40821,
   0xf61e2562, 0xc040b340, 0x265e5a51, 0xe9b6c7aa,
   0xd62f105d, 0x02441453, 0xd8a1e681, 0xe7d3fbc8,
   0x21e1cde6, 0xc33707d6, 0xf4d50d87, 0x455a14ed,
   0xa9e3e905, 0xfcefa3f8, 0x676f02d9, 0x8d2a4c8a,
   0xfffa3942, 0x8771f681, 0x6d9d6122, 0xfde5380c,
   0xa4beea44, 0x4bdecfa9, 0xf6bb4b60, 0xbebfbc70,
   0x289b7ec6, 0xeaa127fa, 0xd4ef3085, 0x04881d05,
   0xd9d4d039, 0xe6db99e5, 0x1fa27cf8, 0xc4ac5665,
   0xf4292244, 0x432aff97, 0xab9423a7, 0xfc93a039,
   0x655b59c3, 0x8f0ccc92, 0xffeff47d, 0x85845dd1,
   0x6fa87e4f, 0xfe2ce6e0, 0xa3014314, 0x4e0811a1,
   0xf7537e82, 0xbd3af235, 0x2ad7d2bb, 0xeb86d391]

/-- The 64 per-round left-rotation amounts of RFC 1321. -/
def S : List Nat :=
  [7, 12, 17, 22, 7, 12, 17, 22, 7, 12, 17, 22, 7, 12, 17, 22,
   5, 9, 14, 20, 5, 9, 14, 20, 5, 9, 14, 20, 5, 9, 14, 20,
   4, 11, 16, 23, 4, 11, 16, 23, 4, 11, 16, 23, 4, 11, 16, 23,
   6, 10, 15, 21, 6, 10, 15, 21, 6, 10, 15, 21, 6, 10, 15, 21]

/-- 2^32, the word modulus. -/
def M32 : Nat := 4294967296

/-- Left rotation of a 32-bit word held as a Nat below 2^32. -/
def rotl (x n : Nat) : Nat := ((x <<< n) % M32) ||| (x >>> (32 - n))

/-- Bitwise complement of a 32-bit word. -/
def bnot (x : Nat) : Nat := x ^^^ 0xFFFFFFFF

/-- UTF-8 encoding of a single Unicode code point (the encoding
performed by str.encode in Python). -/
def encodeChar (n : Nat) : List Nat :=
  if n < 0x80 then [n]
  else if n < 0x800 then
    [0xC0 ||| (n >>> 6), 0x80 ||| (n &&& 0x3F)]
  else if n < 0x10000 then
    [0xE0 ||| (n >>> 12), 0x80 ||| ((n >>> 6) &&& 0x3F), 0x80 ||| (n &&& 0x3F)]
  else
    [0xF0 ||| (n >>> 18), 0x80 ||| ((n >>> 12) &&& 0x3F),
     0x80 ||| ((n >>> 6) &&& 0x3F), 0x80 ||| (n &&& 0x3F)]

/-- UTF-8 bytes of a string. -/
def utf8Bytes (s : String) : List Nat :=
  s.data.foldr (fun c acc => encodeChar c.toNat ++ acc) []

/-- The 8-byte little-endian encoding of the 64-bit message bit length. -/
def le64 (n : Nat) : List Nat :=
  (List.range 8).map (fun i => (n >>> (8 * i)) &&& 0xFF)

/-- The 4-byte little-endian encoding of a 32-bit word. -/
def le32 (n : Nat) : List Nat :=
  [n &&& 0xFF, (n >>> 8) &&& 0xFF, (n >>> 16) &&& 0xFF, (n >>> 24) &&& 0xFF]

/-- MD5 padding: a 0x80 byte, zero bytes up to 56 modulo 64, then the
64-bit little-endian bit length of the original message. -/
def pad (msg : List Nat) : List Nat :=
  msg ++ [0x80] ++ List.replicate ((119 - msg.length % 64) % 64) 0
      ++ le64 ((msg.length * 8) % (M32 * M32))

/-- The g-th little-endian 32-bit word of a 64-byte chunk. -/
def word (chunk : List Nat) (g : Nat) : Nat :=
  chunk.getD (4 * g) 0 ||| (chunk.getD (4 * g + 1) 0 <<< 8)
    ||| (chunk.getD (4 * g + 2) 0 <<< 16) ||| (chunk.getD (4 * g + 3) 0 <<< 24)

/-- One of the 64 MD5 operations on the running state (a, b, c, d). -/
def step (chunk : List Nat) (st : Nat × Nat × Nat × Nat) (i : Nat) :
    Nat × Nat × Nat × Nat :=
  let a := st.1
  let b := st.2.1
  let c := st.2.2.1
  let d := st.2.2.2
  let fg : Nat × Nat :=
    if i < 16 then ((b &&& c) ||| (bnot b &&& d), i)
    else if i < 32 then ((d &&& b) ||| (bnot d &&& c), (5 * i + 1) % 16)
    else if i < 48 then (b ^^^ c ^^^ d, (3 * i + 5) % 16)
    else (c ^^^ (b ||| bnot d), (7 * i) % 16)
  let f2 := (fg.1 + a + K.getD i 0 + word chunk fg.2) % M32
  (d, (b + rotl f2 (S.getD i 0)) % M32, b, c)

/-- Fold one 64-byte chunk into the accumulated digest state. -/
def processChunk (st : Nat × Nat × Nat × Nat) (chunk : List Nat) :
    Nat × Nat × Nat × Nat :=
  let r := (List.range 64).foldl (step chunk) st
  ((st.1 + r.1) % M32, (st.2.1 + r.2.1) % M32,
   (st.2.2.1 + r.2.2.1) % M32, (st.2.2.2 + r.2.2.2) % M32)

/-- Split a padded message into its 64-byte chunks. -/
def splitChunks (l : List Nat) : List (List Nat) :=
  (List.range (l.length / 64)).map (fun i => ((l.drop (64 * i)).take 64))

/-- The 16 digest bytes of a message. -/
def md5Bytes (msg : List Nat) : List Nat :=
  let st := (splitChunks (pad msg)).foldl processChunk
    (0x67452301, 0xefcdab89, 0x98badcfe, 0x10325476)
  le32 st.1 ++ le32 st.2.1 ++ le32 st.2.2.1 ++ le32 st.2.2.2

/-- Lowercase hexadecimal digit for a value below 16. -/
def hexDigit (n : Nat) : Char :=
  if n < 10 then Char.ofNat (48 + n) else Char.ofNat (87 + n)

/-- Lowercase hexadecimal rendering of a byte list. -/
def toHex (bytes : List Nat) : String :=
  String.mk (bytes.foldr (fun b acc => hexDigit (b >>> 4) :: hexDigit (b &&& 0xF) :: acc) [])

/-- hashlib.md5(s.encode("utf-8")).hexdigest() -/
def md5hex (s : String) : String := toHex (md5Bytes (utf8Bytes s))

/-- hashlib.md5(s.encode("utf-8")).hexdigest()[:8], the truncated hash
used throughout the repository. -/
def md5hex8 (s : String) : String := (md5hex s).take 8

end Md5

/-! ## Python value helpers -/

/-- Truthiness of an optional string, as Python evaluates it in a
condition: None and the empty string are falsy. -/
def pyTruthy : Option String → Bool
  | none => false
  | some s => s != ""

/-- The Python expression (x or d) for an optional string x: the
default is taken when x is None or empty. -/
def pyOr (o : Option String) (d : String) : String :=
  match o with
  | none => d
  | some s => if s = "" then d else s

/-- The Python str.strip() for the whitespace arguments the code uses:
drop leading and trailing whitespace characters.  Implemented over the
character list so that it reduces structurally. -/
def pyStrip (s : String) : String :=
  String.mk (((s.data.dropWhile Char.isWhitespace).reverse.dropWhile
    Char.isWhitespace).reverse)

/-! ## Record model (src/models.py, class RentalListing) -/

/-- The normalized listing record of src/models.py.  Optional fields are
Python None by default; scraped_at carries the isoformat string of the
datetime, which is the only form the code serializes or hashes. -/
structure RentalListing where
  url : String
  address : String
  price : Option String := none
  beds : Option String := none
  baths : Option String := none
  sqft : Option String := none
  house_type : Option String := none
  description : Option String := none
  amenities : Option (List String) := none
  available_date : Option String := none
  parking : Option String := none
  utilities : Option String := none
  contact_info : Option String := none
  appointment_url : Option String := none
  scraped_at : Option String := none
  notes : Option String := none
  decision : Option String := some "Pending Review"
deriving Repr, DecidableEq

namespace RentalListing

/-- models.RentalListing._hash_field: the empty string for None, the
8-character truncated MD5 hex digest otherwise.  Note that, unlike the
similarly named helper in sheets.py, this version hashes the empty
string instead of mapping it to the empty hash. -/
def hash_field : Option String → String
  | none => ""
  | some v => Md5.md5hex8 v

/-- The Python expression (self.amenities or []). -/
def amenitiesOrNil (l : RentalListing) : List String :=
  match l.amenities with
  | none => []
  | some xs => xs

/-- The serialized amenities cell, (", ".join(self.amenities or [])). -/
def amenitiesStr (l : RentalListing) : String :=
  String.intercalate ", " l.amenitiesOrNil

/-- The serialized scraped_at cell,
(self.scraped_at.isoformat() if self.scraped_at else ""). -/
def scrapedAtStr (l : RentalListing) : String :=
  match l.scraped_at with
  | none => ""
  | some t => t

/-- models.RentalListing.to_sheet_row: the canonical ordered 17-column
row of string cells. -/
def to_sheet_row (l : RentalListing) : List String :=
  [l.url, l.address, pyOr l.price "", pyOr l.beds "", pyOr l.baths "",
   pyOr l.sqft "", pyOr l.house_type "", pyOr l.description "",
   l.amenitiesStr, pyOr l.available_date "", pyOr l.parking "",
   pyOr l.utilities "", pyOr l.contact_info "", pyOr l.appointment_url "",
   l.scrapedAtStr, pyOr l.notes "", pyOr l.decision "Pending Review"]

/-- models.RentalListing.to_hash_row: per-field hashes in the same
order.  The amenities and scraped_at cells are serialized first and the
resulting string (possibly empty) is hashed, exactly as the source does. -/
def to_hash_row (l : RentalListing) : List String :=
  [hash_field (some l.url), hash_field (some l.address), hash_field l.price,
   hash_field l.beds, hash_field l.baths, hash_field l.sqft,
   hash_field l.house_type, hash_field l.description,
   hash_field (some l.amenitiesStr), hash_field l.available_date,
   hash_field l.parking, hash_field l.utilities, hash_field l.contact_info,
   hash_field l.appointment_url, hash_field (some l.scrapedAtStr),
   hash_field l.notes, hash_field l.decision]

/-- models.RentalListing.get_decision_options. -/
def decision_options : List String :=
  ["Pending Review", "Interested", "Shortlisted", "Rejected",
   "Appointment Scheduled"]

end RentalListing

/-- The canonical field-name list, repeated verbatim at
sheets.py:71, 413, 474 and 806. -/
def field_names : List String :=
  ["url", "address", "price", "beds", "baths", "sqft", "house_type",
   "description", "amenities", "available_date", "parking", "utilities",
   "contact_info", "appointment_url", "scraped_at", "notes", "decision"]

/-! ## Fact cache (src/cache.py plus the field-hash store)

src/cache.py defines WebPageCache with the raw-page operations only.
The field-hash operations invoked throughout sheets.py and cli.py
(set_field_hash, get_all_field_hashes, clear_field_hashes,
clear_specific_field_hashes) have no definition anywhere under src/;
only their call sites exist.  They are therefore modelled here from the
spec (sections 4.2 and 6): a durable mapping from (url, field_name) to
an 8-character content hash. -/

/-- The field-hash table state: a total lookup from url and field name
to the stored hash, absent entries being none.  Modelled from the spec:
two logical tables, of which this is the field-hash one,
(url, field_name, hash, last_updated). -/
def HashDB : Type := String → String → Option String

/-- The empty field-hash table. -/
def emptyDB : HashDB := fun _ _ => none

/-- The fact cache handle: none models the storage layer being
unavailable, which the spec requires to degrade to no cached hash
rather than crash. -/
def FactCache : Type := Option HashDB

/-- The table update behind set_hash: replace the entry of one
(url, field) pair, removing it when the value is empty. -/
def setHashDB (db : HashDB) (url field value : String) : HashDB :=
  fun u f =>
    if u = url ∧ f = field then (if value = "" then none else some value)
    else db u f

/-- The table update behind clear_hashes: drop every entry of a url. -/
def clearHashDB (db : HashDB) (url : String) : HashDB :=
  fun u f => if u = url then none else db u f

/-- The table update behind clear_specific_hashes: drop the named
entries of a url. -/
def clearSpecificHashDB (db : HashDB) (url : String) (fields : List String) :
    HashDB :=
  fun u f => if u = url ∧ f ∈ fields then none else db u f

/-- Modelled from the spec: set_hash(url, field, value) stores the
protection entry for a field and is a no-op/clear when the value is
empty.  The content hashing itself happens at the call sites
(sheets.py:449 passes the already computed new_hash; sheets.py:548 and
cli.py:570 pass the raw cell value), so the store keeps the argument
verbatim.  An unavailable store degrades to a logged no-op. -/
def set_field_hash (c : FactCache) (url field value : String) : FactCache :=
  c.map (fun db => setHashDB db url field value)

/-- Modelled from the spec: get_all_hashes(url) returns the map from
field name to stored hash for one url; an unavailable store degrades to
the empty map. -/
def get_all_field_hashes (c : FactCache) (url : String) : String → Option String :=
  match c with
  | none => fun _ => none
  | some db => db url

/-- Modelled from the spec: clear_hashes(url) removes every field hash
for a url (used by force-reset). -/
def clear_field_hashes (c : FactCache) (url : String) : FactCache :=
  c.map (fun db => clearHashDB db url)

/-- Modelled from the spec: clear_specific_hashes(url, field_list)
removes the named field hashes for a url (used by unprotect). -/
def clear_specific_field_hashes (c : FactCache) (url : String)
    (fields : List String) : FactCache :=
  c.map (fun db => clearSpecificHashDB db url fields)

/-- The stored hash for one url and field, stored_hashes.get(field). -/
def getHash (c : FactCache) (url field : String) : Option String :=
  get_all_field_hashes c url field

/-! ## Reconciliation engine (src/sheets.py, GoogleSheetsManager) -/

/-- One iteration of the loop of _detect_manual_changes
(sheets.py:85-116): notes and decision are flagged as manual whenever a
stored hash exists; any other field is flagged when a stored hash
exists and differs from the hash of the new value. -/
def detectField (stored : String → Option String) (fieldName newHash : String) : Bool :=
  let storedHash := stored fieldName
  if fieldName = "notes" then pyTruthy storedHash
  else if fieldName = "decision" then pyTruthy storedHash
  else
    match storedHash with
    | none => false
    | some h => h != "" && h != newHash

/-- GoogleSheetsManager._detect_manual_changes (sheets.py:69-118): the
per-field manual-change flags for a new listing against the stored
hashes of its url. -/
def detect_manual_changes (c : FactCache) (url : String) (l : RentalListing) :
    List Bool :=
  List.zipWith (detectField (get_all_field_hashes c url)) field_names l.to_hash_row

/-- The 17-column normalization applied before every write
(sheets.py:406-410, 467-471, 797-801): shorter rows are padded with
empty cells, longer rows are truncated. -/
def padTo17 (row : List (Option String)) : List (Option String) :=
  if row.length < 17 then row ++ List.replicate (17 - row.length) (some "")
  else row.take 17

/-- GoogleSheetsManager._validate_decision_value (sheets.py:826-840):
empty, missing or out-of-enum decisions become "Pending Review". -/
def validate_decision_value : Option String → String
  | none => "Pending Review"
  | some d =>
    if d = "" then "Pending Review"
    else if RentalListing.decision_options.contains d then d
    else "Pending Review"

/-- GoogleSheetsManager._validate_row_data_for_dropdown
(sheets.py:866-879): normalize the decision column of a row when it is
present. -/
def validate_row_data_for_dropdown (row : List (Option String)) :
    List (Option String) :=
  if 16 < row.length then
    row.set 16 (some (validate_decision_value (row.getD 16 none)))
  else row

/-- The preservation loop of add_or_update_listing (sheets.py:421-429),
written with an explicit running index: cell i is replaced by the
existing cell when the manual flag at i is set and the existing row has
an entry there.  Indices beyond either list leave the row unchanged,
matching the zip truncation and bounds check of the source. -/
def applyPreserveFrom (ed : List (Option String)) (m : List Bool) :
    Nat → List (Option String) → List (Option String)
  | _, [] => []
  | i, v :: rest =>
    (if m.getD i false ∧ i < ed.length then ed.getD i none else v)
      :: applyPreserveFrom ed m (i + 1) rest

/-- The preservation loop, starting at index 0. -/
def applyPreserve (row ed : List (Option String)) (m : List Bool) :
    List (Option String) :=
  applyPreserveFrom ed m 0 row

/-- The notes guard of add_or_update_listing (sheets.py:431-436): when
the existing notes cell is truthy and the merged notes cell is not, the
existing notes are restored. -/
def applyNotesGuard (row ed : List (Option String)) : List (Option String) :=
  if 15 < ed.length ∧ pyTruthy (ed.getD 15 none) ∧ ¬ pyTruthy (row.getD 15 none)
  then row.set 15 (ed.getD 15 none)
  else row

/-- The decision guard of add_or_update_listing (sheets.py:438-443):
when the existing decision cell is truthy and differs from the default
sentinel, it is restored. -/
def applyDecisionGuard (row ed : List (Option String)) : List (Option String) :=
  if 16 < ed.length ∧ pyTruthy (ed.getD 16 none)
      ∧ ed.getD 16 none ≠ some "Pending Review"
  then row.set 16 (ed.getD 16 none)
  else row

/-- The hash write of add_or_update_listing (sheets.py:445-449 and
481-485) and sort_listings_by_decision (sheets.py:811-814): for every
field of the canonical order, the hash of the NEW listing value is
stored when it is non-empty; empty hashes are skipped and existing
entries for them are left in place. -/
def storeNewHashes (c : FactCache) (url : String) (l : RentalListing) : FactCache :=
  (List.zip field_names l.to_hash_row).foldl
    (fun acc p => if p.2 != "" then set_field_hash acc url p.1 p.2 else acc) c

/-- The update branch of add_or_update_listing (sheets.py:393-454) as a
pure function from the new listing, the existing row cells, the fact
cache and the reset flag to the written row and the new cache state.
Cells are optional strings because the preloaded-data path of the
source places Python None entries in existing_data, which can be copied
into the written row. -/
def mergeExisting (l : RentalListing) (ed : List (Option String))
    (c : FactCache) (resetHashes : Bool) :
    List (Option String) × FactCache :=
  let c1 := if resetHashes then clear_field_hashes c l.url else c
  let manual := if resetHashes then List.replicate 16 false
                else detect_manual_changes c l.url l
  let row1 := validate_row_data_for_dropdown
    (padTo17 (l.to_sheet_row.map some))
  let row2 := applyPreserve row1 ed manual
  let row3 := applyNotesGuard row2 ed
  let row4 := applyDecisionGuard row3 ed
  (row4, storeNewHashes c1 l.url l)

/-- GoogleSheetsManager.add_or_update_listing (sheets.py:357-493):
merge against the existing row when one is known, otherwise append the
normalized new row; in both branches the hashes of the new listing are
recorded and the call reports success. -/
def add_or_update_listing (l : RentalListing) (c : FactCache)
    (resetHashes : Bool) (existing : Option (List (Option String))) :
    List (Option String) × FactCache × Bool :=
  match existing with
  | some ed =>
    let r := mergeExisting l ed c resetHashes
    (r.1, r.2, true)
  | none =>
    let row := validate_row_data_for_dropdown (padTo17 (l.to_sheet_row.map some))
    (row, storeNewHashes c l.url l, true)

/-- GoogleSheetsManager._validate_listing_for_dropdown
(sheets.py:842-864): copy of a listing with the decision normalized. -/
def validate_listing_for_dropdown (l : RentalListing) : RentalListing :=
  { l with decision := some (validate_decision_value l.decision) }

/-- The pre-loaded per-row data gathered by rescrape_all_listings
(sheets.py:675-680): address, notes and decision of the existing sheet
row.  The decision defaults to the sentinel when the column is absent. -/
structure PreloadedRow where
  address : Option String
  notes : Option String
  decision : Option String
deriving Repr, DecidableEq

/-- The url_to_row_data entry built from one sheet row
(sheets.py:675-680). -/
def preloadedFromRow (row : List String) : PreloadedRow :=
  { address := if 1 < row.length then some (row.getD 1 "") else none
    notes := if 15 < row.length then some (row.getD 15 "") else none
    decision := some (if 16 < row.length then row.getD 16 "" else "Pending Review") }

/-- The stub existing_data list built from pre-loaded data at
sheets.py:364-385: the url, the preloaded address, thirteen Python None
entries for the scraped facts, then the preloaded notes and decision. -/
def stubExistingData (l : RentalListing) (p : PreloadedRow) :
    List (Option String) :=
  [some l.url, p.address, none, none, none, none, none, none, none, none,
   none, none, none, none, none, p.notes, p.decision]

/-- The placeholder listing synthesized when a fetch fails during bulk
rescrape (sheets.py:705-723): address, notes and decision are carried
over from the sheet row, the description becomes a sentinel, scraped_at
becomes the current time, and every other fact is None. -/
def failedScrapePlaceholder (url : String) (p : PreloadedRow) (now : String) :
    RentalListing :=
  { url := url
    address := pyOr p.address "Scraping Failed"
    description := some "Data unavailable - scraping failed"
    scraped_at := some now
    notes := p.notes
    decision := some (pyOr p.decision "Pending Review") }

/-- The per-url step of rescrape_all_listings for a FAILED fetch
(sheets.py:693-750): synthesize the placeholder, normalize it for the
dropdown, clear the hashes when ignore_hashes is set, and run
add_or_update_listing with the pre-loaded row data. -/
def rescrapeFailedStep (row : List String) (c : FactCache)
    (ignoreHashes : Bool) (now : String) :
    List (Option String) × FactCache × Bool :=
  let url := pyStrip (row.getD 0 "")
  let p := preloadedFromRow row
  let listing := validate_listing_for_dropdown (failedScrapePlaceholder url p now)
  let c1 := if ignoreHashes then clear_field_hashes c url else c
  add_or_update_listing listing c1 ignoreHashes (some (stubExistingData listing p))

/-- The cache effect of GoogleSheetsManager.update_listing_notes
(sheets.py:536-563): non-blank notes are recorded as protection (the
raw notes string is passed to set_field_hash); blank notes clear the
protection entry instead. -/
def update_listing_notes_cache (c : FactCache) (url notes : String) : FactCache :=
  if notes ≠ "" ∧ pyStrip notes ≠ "" then set_field_hash c url "notes" notes
  else clear_specific_field_hashes c url ["notes"]

/-- The cache effect of GoogleSheetsManager.update_listing_decision
(sheets.py:565-600) once the value has passed validation: a non-blank,
non-default decision is recorded as protection (again the raw value is
passed); otherwise the entry is cleared. -/
def update_listing_decision_cache (c : FactCache) (url decision : String) :
    FactCache :=
  let nd := validate_decision_value (some decision)
  if nd ≠ "" ∧ pyStrip nd ≠ "" ∧ nd ≠ "Pending Review"
  then set_field_hash c url "decision" nd
  else clear_specific_field_hashes c url ["decision"]

/-- The per-row parse of GoogleSheetsManager.get_all_listings
(sheets.py:507-528): rows with a url and an address become listings,
each optional column read verbatim when present.  The scraped_at cell
is carried as its isoformat string.  The decision column is read
verbatim, the default applying only when the column is missing. -/
def parseListingRow (row : List String) : Option RentalListing :=
  if 2 ≤ row.length ∧ row.getD 0 "" ≠ "" ∧ row.getD 1 "" ≠ "" then
    some
      { url := row.getD 0 ""
        address := row.getD 1 ""
        price := if 2 < row.length then some (row.getD 2 "") else none
        beds := if 3 < row.length then some (row.getD 3 "") else none
        baths := if 4 < row.length then some (row.getD 4 "") else none
        sqft := if 5 < row.length then some (row.getD 5 "") else none
        house_type := if 6 < row.length then some (row.getD 6 "") else none
        description := if 7 < row.length then some (row.getD 7 "") else none
        amenities :=
          if 8 < row.length ∧ row.getD 8 "" ≠ "" then
            some ((row.getD 8 "").splitOn ", ")
          else none
        available_date := if 9 < row.length then some (row.getD 9 "") else none
        parking := if 10 < row.length then some (row.getD 10 "") else none
        utilities := if 11 < row.length then some (row.getD 11 "") else none
        contact_info := if 12 < row.length then some (row.getD 12 "") else none
        appointment_url := if 13 < row.length then some (row.getD 13 "") else none
        scraped_at :=
          if 14 < row.length ∧ row.getD 14 "" ≠ "" then some (row.getD 14 "")
          else none
        notes := if 15 < row.length then some (row.getD 15 "") else none
        decision := some (if 16 < row.length then row.getD 16 "" else "Pending Review") }
  else none

/-- GoogleSheetsManager.get_all_listings over the data rows (the source
iterates all_values[1:], skipping the header row). -/
def get_all_listings (rows : List (List String)) : List RentalListing :=
  rows.filterMap parseListingRow

/-- The row written for one listing by sort_listings_by_decision
(sheets.py:791-803): the listing is normalized for the dropdown,
serialized, and padded or truncated to 17 columns. -/
def sortListingRow (l : RentalListing) : List (Option String) :=
  padTo17 ((validate_listing_for_dropdown l).to_sheet_row.map some)

/-! ## Helper definitions and lemmas for the proofs -/

/-- The manual-change flag of a scraped-fact field as a function of the
stored hash and the new hash: set exactly when a stored hash exists,
is non-empty and differs from the new hash. -/
def scrapedFlag (o : Option String) (nh : String) : Bool :=
  match o with
  | none => false
  | some h => h != "" && h != nh

/-- The field-hash write loop at the table level. -/
def storeNewHashesDB (db : HashDB) (url : String) (l : RentalListing) : HashDB :=
  (List.zip field_names l.to_hash_row).foldl
    (fun acc p => if p.2 != "" then setHashDB acc url p.1 p.2 else acc) db

/-- The normalized 17-column row of the new listing before any
preservation is applied (sheets.py:404-418). -/
def baseRow (l : RentalListing) : List (Option String) :=
  validate_row_data_for_dropdown (padTo17 (l.to_sheet_row.map some))

/-- The new-listing hash of the field at canonical index k, matching
to_hash_row entry by entry. -/
def newHashAt (l : RentalListing) : Nat → String
  | 0 => RentalListing.hash_field (some l.url)
  | 1 => RentalListing.hash_field (some l.address)
  | 2 => RentalListing.hash_field l.price
  | 3 => RentalListing.hash_field l.beds
  | 4 => RentalListing.hash_field l.baths
  | 5 => RentalListing.hash_field l.sqft
  | 6 => RentalListing.hash_field l.house_type
  | 7 => RentalListing.hash_field l.description
  | 8 => RentalListing.hash_field (some l.amenitiesStr)
  | 9 => RentalListing.hash_field l.available_date
  | 10 => RentalListing.hash_field l.parking
  | 11 => RentalListing.hash_field l.utilities
  | 12 => RentalListing.hash_field l.contact_info
  | 13 => RentalListing.hash_field l.appointment_url
  | 14 => RentalListing.hash_field (some l.scrapedAtStr)
  | 15 => RentalListing.hash_field l.notes
  | 16 => RentalListing.hash_field l.decision
  | _ => ""

/-! ## Concrete scenario data for counterexamples and witnesses -/

/-- The key of the concrete scenario listing. -/
def urlA : String := "https://ex.com/a"

/-- The stored listing of the concrete scenario of the spec: notes
"check kitchen", decision "Shortlisted", price 1200 dollars. -/
def listingStored : RentalListing :=
  { url := urlA, address := "1 Main St", price := some "$1200",
    notes := some "check kitchen", decision := some "Shortlisted" }

/-- The rescraped record of the concrete scenario: price 1250 dollars,
no notes extracted, the default decision. -/
def listingRescraped : RentalListing :=
  { url := urlA, address := "1 Main St", price := some "$1250" }

/-- The stored sheet row of the scenario. -/
def storedRowCells : List (Option String) := listingStored.to_sheet_row.map some

/-- The hash state left by the last write of the stored listing: the
write loop of sheets.py:445-449 applied to the stored listing over an
empty table. -/
def cacheLastWrite : FactCache := storeNewHashes (some emptyDB) urlA listingStored

/-- The hash state in which only notes and decision carry protection,
as produced by the update-notes and update-decision commands. -/
def cacheManualOnly : FactCache :=
  update_listing_decision_cache
    (update_listing_notes_cache (some emptyDB) urlA "check kitchen")
    urlA "Shortlisted"

/-- A fully populated sheet row whose fetch will fail in the C5
scenario. -/
def sheetRowFailed : List String :=
  ["https://ex.com/a", "1 Main St", "$1200", "3", "2", "1500", "House",
   "Nice house", "", "", "", "", "", "", "2024-01-01T00:00:00",
   "check kitchen", "Shortlisted"]

/-- A listing with every optional field absent. -/
def listingBare : RentalListing := { url := urlA, address := "1 Main St" }

/-- A sheet row whose decision column holds a value outside the enum. -/
def sheetRowInvalidDecision : List String :=
  ["https://ex.com/a", "1 Main St", "", "", "", "", "", "", "", "", "", "",
   "", "", "", "", "Maybe"]

/-- A cache whose only entry is a protection mark for notes under the
scenario url, with a plain stored token. -/
def cacheNotesOnly : FactCache := set_field_hash (some emptyDB) urlA "notes" "abcd1234"

/-- The first reconciliation of the rescraped record against the stored
row and the hashes of the last write. -/
def mergeOnce : List (Option String) × FactCache :=
  mergeExisting listingRescraped storedRowCells cacheLastWrite false


/-! ## Concrete evaluation: counterexamples and scenario instances -/

/-- The truncated MD5 digest of the empty string, the value the hash
row records for serialized-empty fields. -/
theorem md5hex8_empty_val : Md5.md5hex8 "" = "d41d8cd9" := by decide

/-- C1 (counterexample): with the hash state actually recorded at the
last write of the stored row (which includes a price hash), the rescrape
merge keeps the old price 1200 dollars instead of updating to 1250. -/
theorem C1_counterexample :
    (mergeExisting listingRescraped storedRowCells cacheLastWrite false).1.getD 2 none =
        some "$1200" ∧
    (mergeExisting listingRescraped storedRowCells cacheLastWrite false).1.getD 2 none ≠
        some "$1250" := by
  decide

/-- C1 (amended): in the spec scenario with protection recorded for
notes and decision only, and no stored price hash, the merged row keeps
notes "check kitchen" and decision "Shortlisted" and updates the price
to 1250 dollars. -/
theorem C1_scenario_amended :
    (mergeExisting listingRescraped storedRowCells cacheManualOnly false).1.getD 15 none =
        some "check kitchen" ∧
    (mergeExisting listingRescraped storedRowCells cacheManualOnly false).1.getD 16 none =
        some "Shortlisted" ∧
    (mergeExisting listingRescraped storedRowCells cacheManualOnly false).1.getD 2 none =
        some "$1250" := by
  decide

/-- C3 (counterexample): reconciliation is not idempotent as claimed:
the first merge keeps the old price, but because the hash write records
the hashes of the new record, a second merge of the same record against
the first merged row and hash map changes the price cell, so the two
merged rows differ. -/
theorem C3_counterexample :
    mergeOnce.1.getD 2 none = some "$1200" ∧
    (mergeExisting listingRescraped mergeOnce.1 mergeOnce.2 false).1.getD 2 none =
        some "$1250" ∧
    (mergeExisting listingRescraped mergeOnce.1 mergeOnce.2 false).1 ≠ mergeOnce.1 := by
  decide

/-- C4 (counterexample): even with force-reset, the merged row does not
take the new record value for every field: the existing non-default
decision "Shortlisted" and the existing notes survive although the new
record carries the default decision and empty notes. -/
theorem C4_counterexample :
    (mergeExisting listingRescraped storedRowCells (some emptyDB) true).1.getD 16 none =
        some "Shortlisted" ∧
    (mergeExisting listingRescraped storedRowCells (some emptyDB) true).1.getD 15 none =
        some "check kitchen" ∧
    listingRescraped.to_sheet_row.getD 16 "" = "Pending Review" ∧
    listingRescraped.to_sheet_row.getD 15 "" = "" := by
  decide

/-- C5 (counterexample): a failed fetch does blank previously stored
scraped facts: for a row holding price 1200 dollars and no stored price
hash, the row written after the failed fetch has an empty price cell. -/
theorem C5_counterexample :
    sheetRowFailed.getD 2 "" = "$1200" ∧
    (rescrapeFailedStep sheetRowFailed (some emptyDB) false
        "2024-02-01T00:00:00").1.getD 2 none = some "" ∧
    (some "" : Option String) ≠ some "$1200" := by
  decide

/-- C6 (counterexample): the hash row of a listing with an absent
amenities list and an absent scraped_at does NOT contain the empty
string there: both cells hold the hash of the empty string, d41d8cd9. -/
theorem C6_counterexample :
    listingBare.amenities = none ∧ listingBare.scraped_at = none ∧
    listingBare.to_hash_row.getD 8 "" = "d41d8cd9" ∧
    listingBare.to_hash_row.getD 14 "" = "d41d8cd9" ∧
    ("d41d8cd9" : String) ≠ "" := by
  decide

/-- C9 (counterexample): an out-of-enum decision stored in the sheet is
NOT normalized at read time: get_all_listings returns it verbatim. -/
theorem C9_counterexample :
    (get_all_listings [sheetRowInvalidDecision]).map RentalListing.decision =
        [some "Maybe"] ∧
    ("Maybe" : String) ∉ RentalListing.decision_options ∧
    ("Maybe" : String) ≠ "Pending Review" := by
  decide

section SymbolicProofs

attribute [local irreducible] Md5.md5hex8

theorem storeFold_some (url : String) :
    ∀ (xs : List (String × String)) (db : HashDB),
      xs.foldl (fun acc p => if p.2 != "" then set_field_hash acc url p.1 p.2 else acc)
        (some db) =
      some (xs.foldl (fun acc p => if p.2 != "" then setHashDB acc url p.1 p.2 else acc) db) := by
  intro xs
  induction xs with
  | nil => intro db; rfl
  | cons p rest ih =>
    intro db
    by_cases hp : p.2 != ""
    · simp only [List.foldl_cons, hp, if_true]
      exact ih _
    · simp only [List.foldl_cons, hp, if_false]
      exact ih _

/-- On an available store, the hash write of sheets.py:445-449 acts as
the table-level fold. -/
theorem storeNewHashes_some (db : HashDB) (url : String) (l : RentalListing) :
    storeNewHashes (some db) url l = some (storeNewHashesDB db url l) :=
  storeFold_some url _ db

theorem setHashDB_get_same (db : HashDB) (u f v : String) :
    setHashDB db u f v u f = if v = "" then none else some v := by
  simp [setHashDB]

theorem setHashDB_get_ne (db : HashDB) (u u' f f' v : String) (h : f' ≠ f) :
    setHashDB db u f v u' f' = db u' f' := by
  simp [setHashDB, h]

theorem applyPreserveFrom_length (ed : List (Option String)) (m : List Bool) :
    ∀ (i : Nat) (row : List (Option String)),
      (applyPreserveFrom ed m i row).length = row.length := by
  intro i row
  induction row generalizing i with
  | nil => rfl
  | cons v rest ih => simp [applyPreserveFrom, ih]

theorem padTo17_length (row : List (Option String)) : (padTo17 row).length = 17 := by
  unfold padTo17
  split
  · simp only [List.length_append, List.length_replicate]
    omega
  · simp only [List.length_take]
    omega

theorem validate_row_length (row : List (Option String)) :
    (validate_row_data_for_dropdown row).length = row.length := by
  unfold validate_row_data_for_dropdown
  split <;> simp

theorem notesGuard_length (row ed : List (Option String)) :
    (applyNotesGuard row ed).length = row.length := by
  unfold applyNotesGuard
  split <;> simp

theorem decisionGuard_length (row ed : List (Option String)) :
    (applyDecisionGuard row ed).length = row.length := by
  unfold applyDecisionGuard
  split <;> simp

theorem mergeExisting_length (l : RentalListing) (ed : List (Option String))
    (c : FactCache) (b : Bool) : (mergeExisting l ed c b).1.length = 17 := by
  unfold mergeExisting applyPreserve
  simp only [decisionGuard_length, notesGuard_length, applyPreserveFrom_length,
    validate_row_length, padTo17_length]

theorem getD_set_ne {α : Type} (l : List α) (i j : Nat) (a : α) (d : α)
    (h : i ≠ j) : (l.set i a).getD j d = l.getD j d := by
  simp [List.getD, List.getElem?_set_ne h]

theorem getD_set_self {α : Type} (l : List α) (i : Nat) (a : α) (d : α)
    (h : i < l.length) : (l.set i a).getD i d = a := by
  simp [List.getD, List.getElem?_set_self, h]

theorem notesGuard_getD_ne (row ed : List (Option String)) (k : Nat) (hk : k ≠ 15) :
    (applyNotesGuard row ed).getD k none = row.getD k none := by
  unfold applyNotesGuard
  split
  · exact getD_set_ne _ _ _ _ _ (fun h => hk h.symm)
  · rfl

theorem decisionGuard_getD_ne (row ed : List (Option String)) (k : Nat) (hk : k ≠ 16) :
    (applyDecisionGuard row ed).getD k none = row.getD k none := by
  unfold applyDecisionGuard
  split
  · exact getD_set_ne _ _ _ _ _ (fun h => hk h.symm)
  · rfl

theorem notesGuard_getD15 (row ed : List (Option String)) (h : 15 < row.length) :
    (applyNotesGuard row ed).getD 15 none =
      if 15 < ed.length ∧ pyTruthy (ed.getD 15 none) ∧ ¬ pyTruthy (row.getD 15 none)
      then ed.getD 15 none else row.getD 15 none := by
  unfold applyNotesGuard
  split
  · exact getD_set_self _ _ _ _ h
  · rfl

theorem decisionGuard_getD16 (row ed : List (Option String)) (h : 16 < row.length) :
    (applyDecisionGuard row ed).getD 16 none =
      if 16 < ed.length ∧ pyTruthy (ed.getD 16 none)
          ∧ ed.getD 16 none ≠ some "Pending Review"
      then ed.getD 16 none else row.getD 16 none := by
  unfold applyDecisionGuard
  split
  · exact getD_set_self _ _ _ _ h
  · rfl

theorem baseRow_length (l : RentalListing) : (baseRow l).length = 17 := by
  unfold baseRow
  rw [validate_row_length, padTo17_length]

theorem mergeExisting_false_row (l : RentalListing) (ed : List (Option String))
    (c : FactCache) :
    (mergeExisting l ed c false).1 =
      applyDecisionGuard
        (applyNotesGuard
          (applyPreserve (baseRow l) ed (detect_manual_changes c l.url l)) ed) ed := rfl

theorem getD_replicate_false (n i : Nat) :
    (List.replicate n false).getD i false = false := by
  induction n generalizing i with
  | zero => rfl
  | succ k ih =>
    cases i with
    | zero => rfl
    | succ j => simp [List.replicate, ih j]

theorem applyPreserveFrom_all_false (ed : List (Option String)) (n : Nat) :
    ∀ (i : Nat) (row : List (Option String)),
      applyPreserveFrom ed (List.replicate n false) i row = row := by
  intro i row
  induction row generalizing i with
  | nil => rfl
  | cons v rest ih =>
    simp [applyPreserveFrom, getD_replicate_false, ih]

theorem mergeExisting_true_row (l : RentalListing) (ed : List (Option String))
    (c : FactCache) :
    (mergeExisting l ed c true).1 =
      applyDecisionGuard (applyNotesGuard (baseRow l) ed) ed := by
  show applyDecisionGuard (applyNotesGuard
    (applyPreserve (baseRow l) ed (List.replicate 16 false)) ed) ed = _
  rw [applyPreserve, applyPreserveFrom_all_false]

theorem baseRow_getD_0 (l : RentalListing) : (baseRow l).getD 0 none = some l.url := rfl
theorem baseRow_getD_1 (l : RentalListing) : (baseRow l).getD 1 none = some l.address := rfl
theorem baseRow_getD_2 (l : RentalListing) : (baseRow l).getD 2 none = some (pyOr l.price "") := rfl
theorem baseRow_getD_3 (l : RentalListing) : (baseRow l).getD 3 none = some (pyOr l.beds "") := rfl
theorem baseRow_getD_4 (l : RentalListing) : (baseRow l).getD 4 none = some (pyOr l.baths "") := rfl
theorem baseRow_getD_5 (l : RentalListing) : (baseRow l).getD 5 none = some (pyOr l.sqft "") := rfl
theorem baseRow_getD_6 (l : RentalListing) : (baseRow l).getD 6 none = some (pyOr l.house_type "") := rfl
theorem baseRow_getD_7 (l : RentalListing) : (baseRow l).getD 7 none = some (pyOr l.description "") := rfl
theorem baseRow_getD_8 (l : RentalListing) : (baseRow l).getD 8 none = some l.amenitiesStr := rfl
theorem baseRow_getD_9 (l : RentalListing) : (baseRow l).getD 9 none = some (pyOr l.available_date "") := rfl
theorem baseRow_getD_10 (l : RentalListing) : (baseRow l).getD 10 none = some (pyOr l.parking "") := rfl
theorem baseRow_getD_11 (l : RentalListing) : (baseRow l).getD 11 none = some (pyOr l.utilities "") := rfl
theorem baseRow_getD_12 (l : RentalListing) : (baseRow l).getD 12 none = some (pyOr l.contact_info "") := rfl
theorem baseRow_getD_13 (l : RentalListing) : (baseRow l).getD 13 none = some (pyOr l.appointment_url "") := rfl
theorem baseRow_getD_14 (l : RentalListing) : (baseRow l).getD 14 none = some l.scrapedAtStr := rfl
theorem baseRow_getD_15 (l : RentalListing) : (baseRow l).getD 15 none = some (pyOr l.notes "") := rfl
theorem baseRow_getD_16 (l : RentalListing) :
    (baseRow l).getD 16 none =
      some (validate_decision_value (some (pyOr l.decision "Pending Review"))) := rfl

theorem preserve_getD_0 (l : RentalListing) (ed : List (Option String)) (c : FactCache) :
    (applyPreserve (baseRow l) ed (detect_manual_changes c l.url l)).getD 0 none =
      if (scrapedFlag (get_all_field_hashes c l.url "url") (newHashAt l 0) : Bool) ∧ 0 < ed.length
      then ed.getD 0 none else some l.url := rfl
theorem preserve_getD_1 (l : RentalListing) (ed : List (Option String)) (c : FactCache) :
    (applyPreserve (baseRow l) ed (detect_manual_changes c l.url l)).getD 1 none =
      if (scrapedFlag (get_all_field_hashes c l.url "address") (newHashAt l 1) : Bool) ∧ 1 < ed.length
      then ed.getD 1 none else some l.address := rfl
theorem preserve_getD_2 (l : RentalListing) (ed : List (Option String)) (c : FactCache) :
    (applyPreserve (baseRow l) ed (detect_manual_changes c l.url l)).getD 2 none =
      if (scrapedFlag (get_all_field_hashes c l.url "price") (newHashAt l 2) : Bool) ∧ 2 < ed.length
      then ed.getD 2 none else some (pyOr l.price "") := rfl
theorem preserve_getD_3 (l : RentalListing) (ed : List (Option String)) (c : FactCache) :
    (applyPreserve (baseRow l) ed (detect_manual_changes c l.url l)).getD 3 none =
      if (scrapedFlag (get_all_field_hashes c l.url "beds") (newHashAt l 3) : Bool) ∧ 3 < ed.length
      then ed.getD 3 none else some (pyOr l.beds "") := rfl
theorem preserve_getD_4 (l : RentalListing) (ed : List (Option String)) (c : FactCache) :
    (applyPreserve (baseRow l) ed (detect_manual_changes c l.url l)).getD 4 none =
      if (scrapedFlag (get_all_field_hashes c l.url "baths") (newHashAt l 4) : Bool) ∧ 4 < ed.length
      then ed.getD 4 none else some (pyOr l.baths "") := rfl
theorem preserve_getD_5 (l : RentalListing) (ed : List (Option String)) (c : FactCache) :
    (applyPreserve (baseRow l) ed (detect_manual_changes c l.url l)).getD 5 none =
      if (scrapedFlag (get_all_field_hashes c l.url "sqft") (newHashAt l 5) : Bool) ∧ 5 < ed.length
      then ed.getD 5 none else some (pyOr l.sqft "") := rfl
theorem preserve_getD_6 (l : RentalListing) (ed : List (Option String)) (c : FactCache) :
    (applyPreserve (baseRow l) ed (detect_manual_changes c l.url l)).getD 6 none =
      if (scrapedFlag (get_all_field_hashes c l.url "house_type") (newHashAt l 6) : Bool) ∧ 6 < ed.length
      then ed.getD 6 none else some (pyOr l.house_type "") := rfl
theorem preserve_getD_7 (l : RentalListing) (ed : List (Option String)) (c : FactCache) :
    (applyPreserve (baseRow l) ed (detect_manual_changes c l.url l)).getD 7 none =
      if (scrapedFlag (get_all_field_hashes c l.url "description") (newHashAt l 7) : Bool) ∧ 7 < ed.length
      then ed.getD 7 none else some (pyOr l.description "") := rfl
theorem preserve_getD_8 (l : RentalListing) (ed : List (Option String)) (c : FactCache) :
    (applyPreserve (baseRow l) ed (detect_manual_changes c l.url l)).getD 8 none =
      if (scrapedFlag (get_all_field_hashes c l.url "amenities") (newHashAt l 8) : Bool) ∧ 8 < ed.length
      then ed.getD 8 none else some l.amenitiesStr := rfl
theorem preserve_getD_9 (l : RentalListing) (ed : List (Option String)) (c : FactCache) :
    (applyPreserve (baseRow l) ed (detect_manual_changes c l.url l)).getD 9 none =
      if (scrapedFlag (get_all_field_hashes c l.url "available_date") (newHashAt l 9) : Bool) ∧ 9 < ed.length
      then ed.getD 9 none else some (pyOr l.available_date "") := rfl
theorem preserve_getD_10 (l : RentalListing) (ed : List (Option String)) (c : FactCache) :
    (applyPreserve (baseRow l) ed (detect_manual_changes c l.url l)).getD 10 none =
      if (scrapedFlag (get_all_field_hashes c l.url "parking") (newHashAt l 10) : Bool) ∧ 10 < ed.length
      then ed.getD 10 none else some (pyOr l.parking "") := rfl
theorem preserve_getD_11 (l : RentalListing) (ed : List (Option String)) (c : FactCache) :
    (applyPreserve (baseRow l) ed (detect_manual_changes c l.url l)).getD 11 none =
      if (scrapedFlag (get_all_field_hashes c l.url "utilities") (newHashAt l 11) : Bool) ∧ 11 < ed.length
      then ed.getD 11 none else some (pyOr l.utilities "") := rfl
theorem preserve_getD_12 (l : RentalListing) (ed : List (Option String)) (c : FactCache) :
    (applyPreserve (baseRow l) ed (detect_manual_changes c l.url l)).getD 12 none =
      if (scrapedFlag (get_all_field_hashes c l.url "contact_info") (newHashAt l 12) : Bool) ∧ 12 < ed.length
      then ed.getD 12 none else some (pyOr l.contact_info "") := rfl
theorem preserve_getD_13 (l : RentalListing) (ed : List (Option String)) (c : FactCache) :
    (applyPreserve (baseRow l) ed (detect_manual_changes c l.url l)).getD 13 none =
      if (scrapedFlag (get_all_field_hashes c l.url "appointment_url") (newHashAt l 13) : Bool) ∧ 13 < ed.length
      then ed.getD 13 none else some (pyOr l.appointment_url "") := rfl
theorem preserve_getD_14 (l : RentalListing) (ed : List (Option String)) (c : FactCache) :
    (applyPreserve (baseRow l) ed (detect_manual_changes c l.url l)).getD 14 none =
      if (scrapedFlag (get_all_field_hashes c l.url "scraped_at") (newHashAt l 14) : Bool) ∧ 14 < ed.length
      then ed.getD 14 none else some l.scrapedAtStr := rfl
theorem preserve_getD_15 (l : RentalListing) (ed : List (Option String)) (c : FactCache) :
    (applyPreserve (baseRow l) ed (detect_manual_changes c l.url l)).getD 15 none =
      if (pyTruthy (get_all_field_hashes c l.url "notes") : Bool) ∧ 15 < ed.length
      then ed.getD 15 none else some (pyOr l.notes "") := rfl
theorem preserve_getD_16 (l : RentalListing) (ed : List (Option String)) (c : FactCache) :
    (applyPreserve (baseRow l) ed (detect_manual_changes c l.url l)).getD 16 none =
      if (pyTruthy (get_all_field_hashes c l.url "decision") : Bool) ∧ 16 < ed.length
      then ed.getD 16 none
      else some (validate_decision_value (some (pyOr l.decision "Pending Review"))) := rfl

theorem preserve_length (l : RentalListing) (ed : List (Option String))
    (m : List Bool) : (applyPreserve (baseRow l) ed m).length = 17 := by
  unfold applyPreserve
  rw [applyPreserveFrom_length, baseRow_length]

theorem storeFoldDB_get (u f : String) :
    ∀ (xs : List (String × String)) (db : HashDB),
      (xs.foldl (fun acc p => if p.2 != "" then setHashDB acc u p.1 p.2 else acc) db) u f =
      xs.foldl (fun (r : Option String) p => if p.1 = f ∧ p.2 != "" then some p.2 else r)
        (db u f) := by
  intro xs
  induction xs with
  | nil => intro db; rfl
  | cons p rest ih =>
    intro db
    simp only [List.foldl_cons]
    rw [ih]
    congr 1
    by_cases h1 : p.2 = ""
    · simp [h1]
    · by_cases h2 : p.1 = f
      · simp [h1, h2, setHashDB]
      · simp [h1, h2, setHashDB, Ne.symm h2]

theorem zip_names_hashes (l : RentalListing) :
    List.zip field_names l.to_hash_row =
      [("url", newHashAt l 0), ("address", newHashAt l 1), ("price", newHashAt l 2),
       ("beds", newHashAt l 3), ("baths", newHashAt l 4), ("sqft", newHashAt l 5),
       ("house_type", newHashAt l 6), ("description", newHashAt l 7),
       ("amenities", newHashAt l 8), ("available_date", newHashAt l 9),
       ("parking", newHashAt l 10), ("utilities", newHashAt l 11),
       ("contact_info", newHashAt l 12), ("appointment_url", newHashAt l 13),
       ("scraped_at", newHashAt l 14), ("notes", newHashAt l 15),
       ("decision", newHashAt l 16)] := rfl

theorem storeDB_get_url (db : HashDB) (u : String) (l : RentalListing) :
    storeNewHashesDB db u l u "url" =
      if newHashAt l 0 = "" then db u "url" else some (newHashAt l 0) := by
  rw [storeNewHashesDB, storeFoldDB_get, zip_names_hashes]
  simp only [List.foldl_cons, List.foldl_nil]
  by_cases h : newHashAt l 0 = "" <;> simp [h]

theorem storeDB_get_address (db : HashDB) (u : String) (l : RentalListing) :
    storeNewHashesDB db u l u "address" =
      if newHashAt l 1 = "" then db u "address" else some (newHashAt l 1) := by
  rw [storeNewHashesDB, storeFoldDB_get, zip_names_hashes]
  simp only [List.foldl_cons, List.foldl_nil]
  by_cases h : newHashAt l 1 = "" <;> simp [h]

theorem storeDB_get_price (db : HashDB) (u : String) (l : RentalListing) :
    storeNewHashesDB db u l u "price" =
      if newHashAt l 2 = "" then db u "price" else some (newHashAt l 2) := by
  rw [storeNewHashesDB, storeFoldDB_get, zip_names_hashes]
  simp only [List.foldl_cons, List.foldl_nil]
  by_cases h : newHashAt l 2 = "" <;> simp [h]

theorem storeDB_get_beds (db : HashDB) (u : String) (l : RentalListing) :
    storeNewHashesDB db u l u "beds" =
      if newHashAt l 3 = "" then db u "beds" else some (newHashAt l 3) := by
  rw [storeNewHashesDB, storeFoldDB_get, zip_names_hashes]
  simp only [List.foldl_cons, List.foldl_nil]
  by_cases h : newHashAt l 3 = "" <;> simp [h]

theorem storeDB_get_baths (db : HashDB) (u : String) (l : RentalListing) :
    storeNewHashesDB db u l u "baths" =
      if newHashAt l 4 = "" then db u "baths" else some (newHashAt l 4) := by
  rw [storeNewHashesDB, storeFoldDB_get, zip_names_hashes]
  simp only [List.foldl_cons, List.foldl_nil]
  by_cases h : newHashAt l 4 = "" <;> simp [h]

theorem storeDB_get_sqft (db : HashDB) (u : String) (l : RentalListing) :
    storeNewHashesDB db u l u "sqft" =
      if newHashAt l 5 = "" then db u "sqft" else some (newHashAt l 5) := by
  rw [storeNewHashesDB, storeFoldDB_get, zip_names_hashes]
  simp only [List.foldl_cons, List.foldl_nil]
  by_cases h : newHashAt l 5 = "" <;> simp [h]

theorem storeDB_get_house_type (db : HashDB) (u : String) (l : RentalListing) :
    storeNewHashesDB db u l u "house_type" =
      if newHashAt l 6 = "" then db u "house_type" else some (newHashAt l 6) := by
  rw [storeNewHashesDB, storeFoldDB_get, zip_names_hashes]
  simp only [List.foldl_cons, List.foldl_nil]
  by_cases h : newHashAt l 6 = "" <;> simp [h]

theorem storeDB_get_description (db : HashDB) (u : String) (l : RentalListing) :
    storeNewHashesDB db u l u "description" =
      if newHashAt l 7 = "" then db u "description" else some (newHashAt l 7) := by
  rw [storeNewHashesDB, storeFoldDB_get, zip_names_hashes]
  simp only [List.foldl_cons, List.foldl_nil]
  by_cases h : newHashAt l 7 = "" <;> simp [h]

theorem storeDB_get_amenities (db : HashDB) (u : String) (l : RentalListing) :
    storeNewHashesDB db u l u "amenities" =
      if newHashAt l 8 = "" then db u "amenities" else some (newHashAt l 8) := by
  rw [storeNewHashesDB, storeFoldDB_get, zip_names_hashes]
  simp only [List.foldl_cons, List.foldl_nil]
  by_cases h : newHashAt l 8 = "" <;> simp [h]

theorem storeDB_get_available_date (db : HashDB) (u : String) (l : RentalListing) :
    storeNewHashesDB db u l u "available_date" =
      if newHashAt l 9 = "" then db u "available_date" else some (newHashAt l 9) := by
  rw [storeNewHashesDB, storeFoldDB_get, zip_names_hashes]
  simp only [List.foldl_cons, List.foldl_nil]
  by_cases h : newHashAt l 9 = "" <;> simp [h]

theorem storeDB_get_parking (db : HashDB) (u : String) (l : RentalListing) :
    storeNewHashesDB db u l u "parking" =
      if newHashAt l 10 = "" then db u "parking" else some (newHashAt l 10) := by
  rw [storeNewHashesDB, storeFoldDB_get, zip_names_hashes]
  simp only [List.foldl_cons, List.foldl_nil]
  by_cases h : newHashAt l 10 = "" <;> simp [h]

theorem storeDB_get_utilities (db : HashDB) (u : String) (l : RentalListing) :
    storeNewHashesDB db u l u "utilities" =
      if newHashAt l 11 = "" then db u "utilities" else some (newHashAt l 11) := by
  rw [storeNewHashesDB, storeFoldDB_get, zip_names_hashes]
  simp only [List.foldl_cons, List.foldl_nil]
  by_cases h : newHashAt l 11 = "" <;> simp [h]

theorem storeDB_get_contact_info (db : HashDB) (u : String) (l : RentalListing) :
    storeNewHashesDB db u l u "contact_info" =
      if newHashAt l 12 = "" then db u "contact_info" else some (newHashAt l 12) := by
  rw [storeNewHashesDB, storeFoldDB_get, zip_names_hashes]
  simp only [List.foldl_cons, List.foldl_nil]
  by_cases h : newHashAt l 12 = "" <;> simp [h]

theorem storeDB_get_appointment_url (db : HashDB) (u : String) (l : RentalListing) :
    storeNewHashesDB db u l u "appointment_url" =
      if newHashAt l 13 = "" then db u "appointment_url" else some (newHashAt l 13) := by
  rw [storeNewHashesDB, storeFoldDB_get, zip_names_hashes]
  simp only [List.foldl_cons, List.foldl_nil]
  by_cases h : newHashAt l 13 = "" <;> simp [h]

theorem storeDB_get_scraped_at (db : HashDB) (u : String) (l : RentalListing) :
    storeNewHashesDB db u l u "scraped_at" =
      if newHashAt l 14 = "" then db u "scraped_at" else some (newHashAt l 14) := by
  rw [storeNewHashesDB, storeFoldDB_get, zip_names_hashes]
  simp only [List.foldl_cons, List.foldl_nil]
  by_cases h : newHashAt l 14 = "" <;> simp [h]

theorem storeDB_get_notes (db : HashDB) (u : String) (l : RentalListing) :
    storeNewHashesDB db u l u "notes" =
      if newHashAt l 15 = "" then db u "notes" else some (newHashAt l 15) := by
  rw [storeNewHashesDB, storeFoldDB_get, zip_names_hashes]
  simp only [List.foldl_cons, List.foldl_nil]
  by_cases h : newHashAt l 15 = "" <;> simp [h]

theorem storeDB_get_decision (db : HashDB) (u : String) (l : RentalListing) :
    storeNewHashesDB db u l u "decision" =
      if newHashAt l 16 = "" then db u "decision" else some (newHashAt l 16) := by
  rw [storeNewHashesDB, storeFoldDB_get, zip_names_hashes]
  simp only [List.foldl_cons, List.foldl_nil]
  by_cases h : newHashAt l 16 = "" <;> simp [h]

theorem getHash_some (db : HashDB) (u f : String) : getHash (some db) u f = db u f := rfl

theorem list_eq_of_getD17 (l1 l2 : List (Option String)) (h1 : l1.length = 17)
    (h2 : l2.length = 17)
    (h : ∀ k, k < 17 → l1.getD k none = l2.getD k none) : l1 = l2 := by
  apply List.ext_getElem?
  intro n
  by_cases hn : n < 17
  · have e1 := List.getD_eq_getElem l1 none (h1 ▸ hn)
    have e2 := List.getD_eq_getElem l2 none (h2 ▸ hn)
    rw [List.getElem?_eq_getElem (h1 ▸ hn), List.getElem?_eq_getElem (h2 ▸ hn)]
    rw [← e1, ← e2, h n hn]
  · rw [List.getElem?_eq_none (by omega), List.getElem?_eq_none (by omega)]

theorem validate_decision_mem (o : Option String) :
    validate_decision_value o ∈ RentalListing.decision_options := by
  cases o with
  | none => decide
  | some d =>
    simp only [validate_decision_value]
    by_cases h0 : d = ""
    · rw [if_pos h0]; decide
    · rw [if_neg h0]
      by_cases h1 : RentalListing.decision_options.contains d = true
      · rw [if_pos h1]
        exact List.elem_iff.mp h1
      · rw [if_neg h1]; decide

theorem validate_decision_ne_empty (o : Option String) :
    validate_decision_value o ≠ "" := by
  have h := validate_decision_mem o
  intro he
  rw [he] at h
  revert h
  decide

theorem detect_getD_0 (c : FactCache) (u : String) (l : RentalListing) :
    (detect_manual_changes c u l).getD 0 false =
      scrapedFlag (get_all_field_hashes c u "url") (newHashAt l 0) := rfl

theorem detect_getD_1 (c : FactCache) (u : String) (l : RentalListing) :
    (detect_manual_changes c u l).getD 1 false =
      scrapedFlag (get_all_field_hashes c u "address") (newHashAt l 1) := rfl

theorem detect_getD_2 (c : FactCache) (u : String) (l : RentalListing) :
    (detect_manual_changes c u l).getD 2 false =
      scrapedFlag (get_all_field_hashes c u "price") (newHashAt l 2) := rfl

theorem detect_getD_3 (c : FactCache) (u : String) (l : RentalListing) :
    (detect_manual_changes c u l).getD 3 false =
      scrapedFlag (get_all_field_hashes c u "beds") (newHashAt l 3) := rfl

theorem detect_getD_4 (c : FactCache) (u : String) (l : RentalListing) :
    (detect_manual_changes c u l).getD 4 false =
      scrapedFlag (get_all_field_hashes c u "baths") (newHashAt l 4) := rfl

theorem detect_getD_5 (c : FactCache) (u : String) (l : RentalListing) :
    (detect_manual_changes c u l).getD 5 false =
      scrapedFlag (get_all_field_hashes c u "sqft") (newHashAt l 5) := rfl

theorem detect_getD_6 (c : FactCache) (u : String) (l : RentalListing) :
    (detect_manual_changes c u l).getD 6 false =
      scrapedFlag (get_all_field_hashes c u "house_type") (newHashAt l 6) := rfl

theorem detect_getD_7 (c : FactCache) (u : String) (l : RentalListing) :
    (detect_manual_changes c u l).getD 7 false =
      scrapedFlag (get_all_field_hashes c u "description") (newHashAt l 7) := rfl

theorem detect_getD_8 (c : FactCache) (u : String) (l : RentalListing) :
    (detect_manual_changes c u l).getD 8 false =
      scrapedFlag (get_all_field_hashes c u "amenities") (newHashAt l 8) := rfl

theorem detect_getD_9 (c : FactCache) (u : String) (l : RentalListing) :
    (detect_manual_changes c u l).getD 9 false =
      scrapedFlag (get_all_field_hashes c u "available_date") (newHashAt l 9) := rfl

theorem detect_getD_10 (c : FactCache) (u : String) (l : RentalListing) :
    (detect_manual_changes c u l).getD 10 false =
      scrapedFlag (get_all_field_hashes c u "parking") (newHashAt l 10) := rfl

theorem detect_getD_11 (c : FactCache) (u : String) (l : RentalListing) :
    (detect_manual_changes c u l).getD 11 false =
      scrapedFlag (get_all_field_hashes c u "utilities") (newHashAt l 11) := rfl

theorem detect_getD_12 (c : FactCache) (u : String) (l : RentalListing) :
    (detect_manual_changes c u l).getD 12 false =
      scrapedFlag (get_all_field_hashes c u "contact_info") (newHashAt l 12) := rfl

theorem detect_getD_13 (c : FactCache) (u : String) (l : RentalListing) :
    (detect_manual_changes c u l).getD 13 false =
      scrapedFlag (get_all_field_hashes c u "appointment_url") (newHashAt l 13) := rfl

theorem detect_getD_14 (c : FactCache) (u : String) (l : RentalListing) :
    (detect_manual_changes c u l).getD 14 false =
      scrapedFlag (get_all_field_hashes c u "scraped_at") (newHashAt l 14) := rfl

theorem detect_getD_15 (c : FactCache) (u : String) (l : RentalListing) :
    (detect_manual_changes c u l).getD 15 false =
      pyTruthy (get_all_field_hashes c u "notes") := rfl

theorem detect_getD_16 (c : FactCache) (u : String) (l : RentalListing) :
    (detect_manual_changes c u l).getD 16 false =
      pyTruthy (get_all_field_hashes c u "decision") := rfl

theorem mergeExisting_cache (l : RentalListing) (ed : List (Option String))
    (c : FactCache) (b : Bool) :
    (mergeExisting l ed c b).2 =
      storeNewHashes (if b then clear_field_hashes c l.url else c) l.url l := rfl

/-! ## Additional shared lemmas -/

theorem pyOr_some_ne (s d : String) (h : s ≠ "") : pyOr (some s) d = s := by
  simp [pyOr, h]

theorem pyOr_some_empty (s : String) : pyOr (some s) "" = s := by
  by_cases h : s = "" <;> simp [pyOr, h]

theorem get_all_some (d : HashDB) (u : String) :
    get_all_field_hashes (some d) u = d u := rfl

/-! ## Claim theorems (symbolic) -/

/-- C2: once a protection entry for notes is recorded in the fact cache (a stored non-empty notes hash), any later reconciliation without a reset, whose incoming notes value is empty or different, leaves the stored notes cell unchanged. -/
theorem C2_notes_never_overwritten (l : RentalListing) (ed : List (Option String))
    (c : FactCache) (h : String)
    (hstored : getHash c l.url "notes" = some h) (hne : h ≠ "")
    (hlen : 15 < ed.length)
    (_hincoming : l.notes = none ∨ some (pyOr l.notes "") ≠ ed.getD 15 none) :
    (mergeExisting l ed c false).1.getD 15 none = ed.getD 15 none := by
  have hstored' : get_all_field_hashes c l.url "notes" = some h := hstored
  rw [mergeExisting_false_row, decisionGuard_getD_ne _ _ 15 (by decide),
    notesGuard_getD15 _ _ (by simp [preserve_length]),
    preserve_getD_15, hstored']
  simp [pyTruthy, hne, hlen]

/-- C3 (amended): reconciliation is idempotent provided no scraped-fact field is flagged as manually changed against the stored hashes; in that case merging the same record a second time, against the row and hash map produced by the first merge, yields the identical merged row. -/
theorem C3_stable_after_second_merge (l : RentalListing)
    (ed : List (Option String)) (db : HashDB)
    (H : ∀ k, k < 15 → (detect_manual_changes (some db) l.url l).getD k false = false) :
    (mergeExisting l (mergeExisting l ed (some db) false).1
        (mergeExisting l ed (some db) false).2 false).1 =
      (mergeExisting l ed (some db) false).1 := by
  set r1 := (mergeExisting l ed (some db) false).1 with hr1
  have hc2 : (mergeExisting l ed (some db) false).2 =
      some (storeNewHashesDB db l.url l) := storeNewHashes_some db l.url l
  rw [hc2]
  have hr1len : r1.length = 17 := mergeExisting_length _ _ _ _
  apply list_eq_of_getD17 _ _ (mergeExisting_length _ _ _ _) hr1len
  intro k hk
  interval_cases k
  · rw [mergeExisting_false_row, decisionGuard_getD_ne _ _ 0 (by decide),
      notesGuard_getD_ne _ _ 0 (by decide), preserve_getD_0]
    have hflag : scrapedFlag (get_all_field_hashes (some db) l.url "url")
        (newHashAt l 0) = false := by
      have hx := H 0 (by decide)
      rwa [detect_getD_0] at hx
    have hr1k : r1.getD 0 none = some l.url := by
      rw [hr1, mergeExisting_false_row, decisionGuard_getD_ne _ _ 0 (by decide),
        notesGuard_getD_ne _ _ 0 (by decide), preserve_getD_0, hflag]
      simp
    rw [hr1k]
    simp
  · rw [mergeExisting_false_row, decisionGuard_getD_ne _ _ 1 (by decide),
      notesGuard_getD_ne _ _ 1 (by decide), preserve_getD_1]
    have hflag : scrapedFlag (get_all_field_hashes (some db) l.url "address")
        (newHashAt l 1) = false := by
      have hx := H 1 (by decide)
      rwa [detect_getD_1] at hx
    have hr1k : r1.getD 1 none = some l.address := by
      rw [hr1, mergeExisting_false_row, decisionGuard_getD_ne _ _ 1 (by decide),
        notesGuard_getD_ne _ _ 1 (by decide), preserve_getD_1, hflag]
      simp
    rw [hr1k]
    simp
  · rw [mergeExisting_false_row, decisionGuard_getD_ne _ _ 2 (by decide),
      notesGuard_getD_ne _ _ 2 (by decide), preserve_getD_2]
    have hflag : scrapedFlag (get_all_field_hashes (some db) l.url "price")
        (newHashAt l 2) = false := by
      have hx := H 2 (by decide)
      rwa [detect_getD_2] at hx
    have hr1k : r1.getD 2 none = some (pyOr l.price "") := by
      rw [hr1, mergeExisting_false_row, decisionGuard_getD_ne _ _ 2 (by decide),
        notesGuard_getD_ne _ _ 2 (by decide), preserve_getD_2, hflag]
      simp
    rw [hr1k]
    simp
  · rw [mergeExisting_false_row, decisionGuard_getD_ne _ _ 3 (by decide),
      notesGuard_getD_ne _ _ 3 (by decide), preserve_getD_3]
    have hflag : scrapedFlag (get_all_field_hashes (some db) l.url "beds")
        (newHashAt l 3) = false := by
      have hx := H 3 (by decide)
      rwa [detect_getD_3] at hx
    have hr1k : r1.getD 3 none = some (pyOr l.beds "") := by
      rw [hr1, mergeExisting_false_row, decisionGuard_getD_ne _ _ 3 (by decide),
        notesGuard_getD_ne _ _ 3 (by decide), preserve_getD_3, hflag]
      simp
    rw [hr1k]
    simp
  · rw [mergeExisting_false_row, decisionGuard_getD_ne _ _ 4 (by decide),
      notesGuard_getD_ne _ _ 4 (by decide), preserve_getD_4]
    have hflag : scrapedFlag (get_all_field_hashes (some db) l.url "baths")
        (newHashAt l 4) = false := by
      have hx := H 4 (by decide)
      rwa [detect_getD_4] at hx
    have hr1k : r1.getD 4 none = some (pyOr l.baths "") := by
      rw [hr1, mergeExisting_false_row, decisionGuard_getD_ne _ _ 4 (by decide),
        notesGuard_getD_ne _ _ 4 (by decide), preserve_getD_4, hflag]
      simp
    rw [hr1k]
    simp
  · rw [mergeExisting_false_row, decisionGuard_getD_ne _ _ 5 (by decide),
      notesGuard_getD_ne _ _ 5 (by decide), preserve_getD_5]
    have hflag : scrapedFlag (get_all_field_hashes (some db) l.url "sqft")
        (newHashAt l 5) = false := by
      have hx := H 5 (by decide)
      rwa [detect_getD_5] at hx
    have hr1k : r1.getD 5 none = some (pyOr l.sqft "") := by
      rw [hr1, mergeExisting_false_row, decisionGuard_getD_ne _ _ 5 (by decide),
        notesGuard_getD_ne _ _ 5 (by decide), preserve_getD_5, hflag]
      simp
    rw [hr1k]
    simp
  · rw [mergeExisting_false_row, decisionGuard_getD_ne _ _ 6 (by decide),
      notesGuard_getD_ne _ _ 6 (by decide), preserve_getD_6]
    have hflag : scrapedFlag (get_all_field_hashes (some db) l.url "house_type")
        (newHashAt l 6) = false := by
      have hx := H 6 (by decide)
      rwa [detect_getD_6] at hx
    have hr1k : r1.getD 6 none = some (pyOr l.house_type "") := by
      rw [hr1, mergeExisting_false_row, decisionGuard_getD_ne _ _ 6 (by decide),
        notesGuard_getD_ne _ _ 6 (by decide), preserve_getD_6, hflag]
      simp
    rw [hr1k]
    simp
  · rw [mergeExisting_false_row, decisionGuard_getD_ne _ _ 7 (by decide),
      notesGuard_getD_ne _ _ 7 (by decide), preserve_getD_7]
    have hflag : scrapedFlag (get_all_field_hashes (some db) l.url "description")
        (newHashAt l 7) = false := by
      have hx := H 7 (by decide)
      rwa [detect_getD_7] at hx
    have hr1k : r1.getD 7 none = some (pyOr l.description "") := by
      rw [hr1, mergeExisting_false_row, decisionGuard_getD_ne _ _ 7 (by decide),
        notesGuard_getD_ne _ _ 7 (by decide), preserve_getD_7, hflag]
      simp
    rw [hr1k]
    simp
  · rw [mergeExisting_false_row, decisionGuard_getD_ne _ _ 8 (by decide),
      notesGuard_getD_ne _ _ 8 (by decide), preserve_getD_8]
    have hflag : scrapedFlag (get_all_field_hashes (some db) l.url "amenities")
        (newHashAt l 8) = false := by
      have hx := H 8 (by decide)
      rwa [detect_getD_8] at hx
    have hr1k : r1.getD 8 none = some l.amenitiesStr := by
      rw [hr1, mergeExisting_false_row, decisionGuard_getD_ne _ _ 8 (by decide),
        notesGuard_getD_ne _ _ 8 (by decide), preserve_getD_8, hflag]
      simp
    rw [hr1k]
    simp
  · rw [mergeExisting_false_row, decisionGuard_getD_ne _ _ 9 (by decide),
      notesGuard_getD_ne _ _ 9 (by decide), preserve_getD_9]
    have hflag : scrapedFlag (get_all_field_hashes (some db) l.url "available_date")
        (newHashAt l 9) = false := by
      have hx := H 9 (by decide)
      rwa [detect_getD_9] at hx
    have hr1k : r1.getD 9 none = some (pyOr l.available_date "") := by
      rw [hr1, mergeExisting_false_row, decisionGuard_getD_ne _ _ 9 (by decide),
        notesGuard_getD_ne _ _ 9 (by decide), preserve_getD_9, hflag]
      simp
    rw [hr1k]
    simp
  · rw [mergeExisting_false_row, decisionGuard_getD_ne _ _ 10 (by decide),
      notesGuard_getD_ne _ _ 10 (by decide), preserve_getD_10]
    have hflag : scrapedFlag (get_all_field_hashes (some db) l.url "parking")
        (newHashAt l 10) = false := by
      have hx := H 10 (by decide)
      rwa [detect_getD_10] at hx
    have hr1k : r1.getD 10 none = some (pyOr l.parking "") := by
      rw [hr1, mergeExisting_false_row, decisionGuard_getD_ne _ _ 10 (by decide),
        notesGuard_getD_ne _ _ 10 (by decide), preserve_getD_10, hflag]
      simp
    rw [hr1k]
    simp
  · rw [mergeExisting_false_row, decisionGuard_getD_ne _ _ 11 (by decide),
      notesGuard_getD_ne _ _ 11 (by decide), preserve_getD_11]
    have hflag : scrapedFlag (get_all_field_hashes (some db) l.url "utilities")
        (newHashAt l 11) = false := by
      have hx := H 11 (by decide)
      rwa [detect_getD_11] at hx
    have hr1k : r1.getD 11 none = some (pyOr l.utilities "") := by
      rw [hr1, mergeExisting_false_row, decisionGuard_getD_ne _ _ 11 (by decide),
        notesGuard_getD_ne _ _ 11 (by decide), preserve_getD_11, hflag]
      simp
    rw [hr1k]
    simp
  · rw [mergeExisting_false_row, decisionGuard_getD_ne _ _ 12 (by decide),
      notesGuard_getD_ne _ _ 12 (by decide), preserve_getD_12]
    have hflag : scrapedFlag (get_all_field_hashes (some db) l.url "contact_info")
        (newHashAt l 12) = false := by
      have hx := H 12 (by decide)
      rwa [detect_getD_12] at hx
    have hr1k : r1.getD 12 none = some (pyOr l.contact_info "") := by
      rw [hr1, mergeExisting_false_row, decisionGuard_getD_ne _ _ 12 (by decide),
        notesGuard_getD_ne _ _ 12 (by decide), preserve_getD_12, hflag]
      simp
    rw [hr1k]
    simp
  · rw [mergeExisting_false_row, decisionGuard_getD_ne _ _ 13 (by decide),
      notesGuard_getD_ne _ _ 13 (by decide), preserve_getD_13]
    have hflag : scrapedFlag (get_all_field_hashes (some db) l.url "appointment_url")
        (newHashAt l 13) = false := by
      have hx := H 13 (by decide)
      rwa [detect_getD_13] at hx
    have hr1k : r1.getD 13 none = some (pyOr l.appointment_url "") := by
      rw [hr1, mergeExisting_false_row, decisionGuard_getD_ne _ _ 13 (by decide),
        notesGuard_getD_ne _ _ 13 (by decide), preserve_getD_13, hflag]
      simp
    rw [hr1k]
    simp
  · rw [mergeExisting_false_row, decisionGuard_getD_ne _ _ 14 (by decide),
      notesGuard_getD_ne _ _ 14 (by decide), preserve_getD_14]
    have hflag : scrapedFlag (get_all_field_hashes (some db) l.url "scraped_at")
        (newHashAt l 14) = false := by
      have hx := H 14 (by decide)
      rwa [detect_getD_14] at hx
    have hr1k : r1.getD 14 none = some l.scrapedAtStr := by
      rw [hr1, mergeExisting_false_row, decisionGuard_getD_ne _ _ 14 (by decide),
        notesGuard_getD_ne _ _ 14 (by decide), preserve_getD_14, hflag]
      simp
    rw [hr1k]
    simp
  · rw [mergeExisting_false_row, decisionGuard_getD_ne _ _ 15 (by decide),
      notesGuard_getD15 _ _ (by simp [preserve_length]), preserve_getD_15,
      get_all_some, storeDB_get_notes]
    by_cases hnh : newHashAt l 15 = ""
    · rw [if_pos hnh]
      cases ht0 : pyTruthy (db l.url "notes") with
      | true => simp [ht0, hr1len]
      | false =>
        have hp1 : (applyPreserve (baseRow l) ed
            (detect_manual_changes (some db) l.url l)).getD 15 none =
            some (pyOr l.notes "") := by
          rw [preserve_getD_15, get_all_some, ht0]
          simp
        have hA : r1.getD 15 none =
            if 15 < ed.length ∧ pyTruthy (ed.getD 15 none)
                ∧ ¬ pyTruthy (some (pyOr l.notes ""))
            then ed.getD 15 none else some (pyOr l.notes "") := by
          rw [hr1, mergeExisting_false_row, decisionGuard_getD_ne _ _ 15 (by decide),
            notesGuard_getD15 _ _ (by simp [preserve_length]), hp1]
        simp only [Bool.false_eq_true, false_and, if_false]
        rw [hA]
        by_cases hg1 : 15 < ed.length ∧ pyTruthy (ed.getD 15 none)
            ∧ ¬ pyTruthy (some (pyOr l.notes ""))
        · rw [if_pos hg1, if_pos ⟨by simp [hr1len], hg1.2.1, hg1.2.2⟩]
        · rw [if_neg hg1]
          simp
    · rw [if_neg hnh]
      have ht1 : pyTruthy (some (newHashAt l 15)) = true := by
        simp [pyTruthy, hnh]
      rw [ht1]
      simp [hr1len]
  · rw [mergeExisting_false_row,
      decisionGuard_getD16 _ _ (by simp [notesGuard_length, preserve_length]),
      notesGuard_getD_ne _ _ 16 (by decide), preserve_getD_16,
      get_all_some, storeDB_get_decision]
    by_cases hnh : newHashAt l 16 = ""
    · rw [if_pos hnh]
      cases ht0 : pyTruthy (db l.url "decision") with
      | true => simp [ht0, hr1len]
      | false =>
        have hp1 : (applyPreserve (baseRow l) ed
            (detect_manual_changes (some db) l.url l)).getD 16 none =
            some (validate_decision_value (some (pyOr l.decision "Pending Review"))) := by
          rw [preserve_getD_16, get_all_some, ht0]
          simp
        have hA : r1.getD 16 none =
            if 16 < ed.length ∧ pyTruthy (ed.getD 16 none)
                ∧ ed.getD 16 none ≠ some "Pending Review"
            then ed.getD 16 none
            else some (validate_decision_value (some (pyOr l.decision "Pending Review"))) := by
          rw [hr1, mergeExisting_false_row,
            decisionGuard_getD16 _ _ (by simp [notesGuard_length, preserve_length]),
            notesGuard_getD_ne _ _ 16 (by decide), hp1]
        simp only [Bool.false_eq_true, false_and, if_false]
        rw [hA]
        by_cases hg1 : 16 < ed.length ∧ pyTruthy (ed.getD 16 none)
            ∧ ed.getD 16 none ≠ some "Pending Review"
        · rw [if_pos hg1, if_pos ⟨by simp [hr1len], hg1.2.1, hg1.2.2⟩]
        · rw [if_neg hg1]
          simp
    · rw [if_neg hnh]
      have ht1 : pyTruthy (some (newHashAt l 16)) = true := by
        simp [pyTruthy, hnh]
      rw [ht1]
      simp [hr1len]

/-- C4 (amended): with the force-reset override the stored hashes for the url are cleared first and the merged row takes the new record value for every scraped-fact column; the notes column still falls back to the existing value when the existing notes are non-empty and the incoming value is empty, and the decision column still keeps a non-default existing value. -/
theorem C4_force_reset_scope (l : RentalListing) (ed : List (Option String))
    (c : FactCache) :
    ((mergeExisting l ed c true).2 =
      storeNewHashes (clear_field_hashes c l.url) l.url l) ∧
    (∀ k, k < 15 → (mergeExisting l ed c true).1.getD k none =
      some (l.to_sheet_row.getD k "")) ∧
    ((mergeExisting l ed c true).1.getD 15 none =
      if 15 < ed.length ∧ pyTruthy (ed.getD 15 none)
          ∧ ¬ pyTruthy (some (pyOr l.notes ""))
      then ed.getD 15 none else some (pyOr l.notes "")) ∧
    ((mergeExisting l ed c true).1.getD 16 none =
      if 16 < ed.length ∧ pyTruthy (ed.getD 16 none)
          ∧ ed.getD 16 none ≠ some "Pending Review"
      then ed.getD 16 none
      else some (validate_decision_value (some (pyOr l.decision "Pending Review")))) := by
  refine ⟨rfl, ?_, ?_, ?_⟩
  · intro k hk
    rw [mergeExisting_true_row, decisionGuard_getD_ne _ _ k (by omega),
      notesGuard_getD_ne _ _ k (by omega)]
    interval_cases k <;> rfl
  · rw [mergeExisting_true_row, decisionGuard_getD_ne _ _ 15 (by decide),
      notesGuard_getD15 _ _ (by simp [baseRow_length]), baseRow_getD_15]
  · rw [mergeExisting_true_row,
      decisionGuard_getD16 _ _ (by simp [notesGuard_length, baseRow_length]),
      notesGuard_getD_ne _ _ 16 (by decide), baseRow_getD_16]

/-- C5 (amended): the placeholder synthesized for a failed fetch preserves the existing row address, notes and (non-default) decision through reconciliation, but the scraped facts are not preserved: the written price cell is empty or a skipped null, and the description cell is the failure sentinel or a skipped null. -/
theorem C5_failed_fetch_scope (row : List String) (c : FactCache) (now : String)
    (hlen : row.length = 17) (haddr : row.getD 1 "" ≠ "") :
    ((rescrapeFailedStep row c false now).1.getD 1 none = some (row.getD 1 "")) ∧
    ((rescrapeFailedStep row c false now).1.getD 15 none = some (row.getD 15 "")) ∧
    (row.getD 16 "" ≠ "" → row.getD 16 "" ≠ "Pending Review" →
      (rescrapeFailedStep row c false now).1.getD 16 none = some (row.getD 16 "")) ∧
    ((rescrapeFailedStep row c false now).1.getD 2 none = none ∨
      (rescrapeFailedStep row c false now).1.getD 2 none = some "") ∧
    ((rescrapeFailedStep row c false now).1.getD 7 none = none ∨
      (rescrapeFailedStep row c false now).1.getD 7 none =
        some "Data unavailable - scraping failed") := by
  have hkey : (rescrapeFailedStep row c false now).1 =
      (mergeExisting
        (validate_listing_for_dropdown
          (failedScrapePlaceholder (pyStrip (row.getD 0 "")) (preloadedFromRow row) now))
        (stubExistingData
          (validate_listing_for_dropdown
            (failedScrapePlaceholder (pyStrip (row.getD 0 "")) (preloadedFromRow row) now))
          (preloadedFromRow row))
        c false).1 := rfl
  set L := validate_listing_for_dropdown
    (failedScrapePlaceholder (pyStrip (row.getD 0 "")) (preloadedFromRow row) now) with hL
  set P := preloadedFromRow row with hP
  set ed := stubExistingData L P with hed
  have hedlen : ed.length = 17 := rfl
  have hed1 : ed.getD 1 none = P.address := rfl
  have hed2 : ed.getD 2 none = none := rfl
  have hed7 : ed.getD 7 none = none := rfl
  have hed15 : ed.getD 15 none = P.notes := rfl
  have hed16 : ed.getD 16 none = P.decision := rfl
  have hPaddr : P.address = some (row.getD 1 "") := by
    simp [hP, preloadedFromRow, hlen]
  have hPnotes : P.notes = some (row.getD 15 "") := by
    simp [hP, preloadedFromRow, hlen]
  have hPdec : P.decision = some (row.getD 16 "") := by
    simp [hP, preloadedFromRow, hlen]
  have hLaddr : L.address = pyOr P.address "Scraping Failed" := rfl
  have hLnotes : L.notes = P.notes := rfl
  have hLprice : L.price = none := rfl
  have hLdesc : L.description = some "Data unavailable - scraping failed" := rfl
  refine ⟨?_, ?_, ?_, ?_, ?_⟩
  · rw [hkey, mergeExisting_false_row, decisionGuard_getD_ne _ _ 1 (by decide),
      notesGuard_getD_ne _ _ 1 (by decide), preserve_getD_1, hed1, hPaddr,
      hLaddr, hPaddr, pyOr_some_ne _ _ haddr]
    simp [hedlen]
  · rw [hkey, mergeExisting_false_row, decisionGuard_getD_ne _ _ 15 (by decide),
      notesGuard_getD15 _ _ (by simp [preserve_length]), preserve_getD_15,
      hed15, hPnotes, hLnotes, hPnotes, pyOr_some_empty]
    simp [hedlen]
  · intro hd1 hd2
    rw [hkey, mergeExisting_false_row,
      decisionGuard_getD16 _ _ (by simp [notesGuard_length, preserve_length]),
      hed16, hPdec]
    rw [if_pos ⟨by rw [hedlen]; decide, by simp only [pyTruthy]; simpa using hd1,
      by simpa using hd2⟩]
  · rw [hkey, mergeExisting_false_row, decisionGuard_getD_ne _ _ 2 (by decide),
      notesGuard_getD_ne _ _ 2 (by decide), preserve_getD_2, hed2, hLprice]
    split
    · left; rfl
    · right; rfl
  · rw [hkey, mergeExisting_false_row, decisionGuard_getD_ne _ _ 7 (by decide),
      notesGuard_getD_ne _ _ 7 (by decide), preserve_getD_7, hed7, hLdesc]
    split
    · left; rfl
    · right; rfl

/-- C7: the field-hash operations of the fact cache satisfy the spec contract: set stores a non-empty entry and clears on an empty value, affects no other field, clear-hashes removes every entry of the url, and clear-specific removes exactly the named fields; every operation is total. -/
theorem C7_fact_cache_operations (db : HashDB) (u u' f f' v : String)
    (fs : List String) :
    (getHash (set_field_hash (some db) u f v) u f = if v = "" then none else some v) ∧
    (f' ≠ f → getHash (set_field_hash (some db) u f v) u' f' = getHash (some db) u' f') ∧
    (getHash (clear_field_hashes (some db) u) u f = none) ∧
    (u' ≠ u → getHash (clear_field_hashes (some db) u) u' f' = getHash (some db) u' f') ∧
    (getHash (clear_specific_field_hashes (some db) u fs) u f =
      if f ∈ fs then none else db u f) ∧
    (u' ≠ u → getHash (clear_specific_field_hashes (some db) u fs) u' f' = db u' f') := by
  refine ⟨?_, ?_, ?_, ?_, ?_, ?_⟩
  · simp [getHash, get_all_field_hashes, set_field_hash, setHashDB]
  · intro hf
    simp [getHash, get_all_field_hashes, set_field_hash, setHashDB, hf]
  · simp [getHash, get_all_field_hashes, clear_field_hashes, clearHashDB]
  · intro hu
    simp [getHash, get_all_field_hashes, clear_field_hashes, clearHashDB, hu]
  · by_cases hm : f ∈ fs <;>
      simp [getHash, get_all_field_hashes, clear_specific_field_hashes,
        clearSpecificHashDB, hm]
  · intro hu
    simp [getHash, get_all_field_hashes, clear_specific_field_hashes,
      clearSpecificHashDB, hu]

/-- C8: with the cache storage unavailable, manual-change detection reports every field unprotected, the merged row is the row that an empty hash table yields, and the per-item update still reports success. -/
theorem C8_unavailable_cache_degrades (l : RentalListing)
    (ed : List (Option String)) (b : Bool) :
    detect_manual_changes none l.url l = List.replicate 17 false ∧
    (add_or_update_listing l none b (some ed)).1 =
      (add_or_update_listing l (some emptyDB) b (some ed)).1 ∧
    (add_or_update_listing l none b (some ed)).2.2 = true := by
  refine ⟨rfl, ?_, rfl⟩
  cases b <;> rfl

/-- C9 (amended): decision normalization is total and maps any out-of-enum value to the default sentinel, and the value written to the decision column is either the normalized new value or the existing cell verbatim; at read time, get_all_listings returns the stored decision verbatim whenever the column is present. -/
theorem C9_decision_normalization_scope :
    (∀ o : Option String, validate_decision_value o ∈ RentalListing.decision_options) ∧
    (∀ d : String, d ∉ RentalListing.decision_options →
      validate_decision_value (some d) = "Pending Review") ∧
    (∀ (l : RentalListing) (ed : List (Option String)) (c : FactCache) (b : Bool),
      (mergeExisting l ed c b).1.getD 16 none =
          some (validate_decision_value (some (pyOr l.decision "Pending Review"))) ∨
        (mergeExisting l ed c b).1.getD 16 none = ed.getD 16 none) ∧
    (∀ row : List String, 16 < row.length → 2 ≤ row.length →
      row.getD 0 "" ≠ "" → row.getD 1 "" ≠ "" →
      (parseListingRow row).map RentalListing.decision = some (some (row.getD 16 ""))) := by
  refine ⟨validate_decision_mem, ?_, ?_, ?_⟩
  · intro d hd
    simp only [validate_decision_value]
    by_cases h0 : d = ""
    · rw [if_pos h0]
    · rw [if_neg h0, if_neg (fun hc => hd (List.elem_iff.mp hc))]
  · intro l ed c b
    cases b with
    | true =>
      rw [mergeExisting_true_row,
        decisionGuard_getD16 _ _ (by simp [notesGuard_length, baseRow_length]),
        notesGuard_getD_ne _ _ 16 (by decide), baseRow_getD_16]
      split
      · right; rfl
      · left; rfl
    | false =>
      rw [mergeExisting_false_row,
        decisionGuard_getD16 _ _ (by simp [notesGuard_length, preserve_length]),
        notesGuard_getD_ne _ _ 16 (by decide), preserve_getD_16]
      split
      · right; rfl
      · split
        · right; rfl
        · left; rfl
  · intro row h16 hlen h0 h1
    unfold parseListingRow
    rw [if_pos ⟨hlen, h0, h1⟩]
    simp [h16]

/-- C10: every data row written by add_or_update_listing or sort_listings_by_decision has exactly 17 entries, shorter row data being padded with empty cells and longer data truncated. -/
theorem C10_written_rows_have_17_cells :
    (∀ (l : RentalListing) (c : FactCache) (b : Bool)
        (ex : Option (List (Option String))),
      ((add_or_update_listing l c b ex).1).length = 17) ∧
    (∀ l : RentalListing, (sortListingRow l).length = 17) ∧
    (∀ row : List (Option String), (padTo17 row).length = 17) := by
  refine ⟨?_, ?_, padTo17_length⟩
  · intro l c b ex
    cases ex with
    | some ed => exact mergeExisting_length l ed c b
    | none =>
      have hrw : (add_or_update_listing l c b none).1 =
          validate_row_data_for_dropdown (padTo17 (l.to_sheet_row.map some)) := rfl
      rw [hrw, validate_row_length, padTo17_length]
  · intro l
    unfold sortListingRow
    rw [padTo17_length]


/-- C6 (amended): the hash row holds the empty string for absent
optional string fields such as price and notes, but an absent amenities
list or scraped_at is serialized to the empty string first and hashed,
yielding the non-empty hash d41d8cd9 of the empty string; hash storage
is skipped exactly for empty computed hashes, so an absent price leaves
the stored price hash untouched. -/
theorem C6_empty_hash_scope (l : RentalListing) (db : HashDB) (u : String) :
    (l.price = none → l.to_hash_row.getD 2 "x" = "") ∧
    (l.notes = none → l.to_hash_row.getD 15 "x" = "") ∧
    (l.amenities = none → l.to_hash_row.getD 8 "x" = Md5.md5hex8 "") ∧
    (l.scraped_at = none → l.to_hash_row.getD 14 "x" = Md5.md5hex8 "") ∧
    Md5.md5hex8 "" = "d41d8cd9" ∧
    (l.price = none →
      getHash (storeNewHashes (some db) u l) u "price" = getHash (some db) u "price") := by
  refine ⟨?_, ?_, ?_, ?_, md5hex8_empty_val, ?_⟩
  · intro h
    show RentalListing.hash_field l.price = ""
    rw [h]
    rfl
  · intro h
    show RentalListing.hash_field l.notes = ""
    rw [h]
    rfl
  · intro h
    show RentalListing.hash_field (some l.amenitiesStr) = Md5.md5hex8 ""
    simp only [RentalListing.amenitiesStr, RentalListing.amenitiesOrNil, h]
    rfl
  · intro h
    show RentalListing.hash_field (some l.scrapedAtStr) = Md5.md5hex8 ""
    simp only [RentalListing.scrapedAtStr, h]
    rfl
  · intro h
    have hnh : newHashAt l 2 = "" := by
      show RentalListing.hash_field l.price = ""
      rw [h]
      rfl
    rw [storeNewHashes_some, getHash_some, storeDB_get_price, if_pos hnh]
    rfl

end SymbolicProofs

/-! ## Witnesses: the hypothesis-bearing theorems applied at concrete
inputs -/

/-- Witness for C2 at the concrete scenario inputs. -/
theorem C2_witness :
    (getHash cacheNotesOnly listingRescraped.url "notes" = some "abcd1234" ∧
      ("abcd1234" : String) ≠ "" ∧ 15 < storedRowCells.length ∧
      (listingRescraped.notes = none ∨
        some (pyOr listingRescraped.notes "") ≠ storedRowCells.getD 15 none)) ∧
    (mergeExisting listingRescraped storedRowCells cacheNotesOnly false).1.getD 15 none =
      storedRowCells.getD 15 none :=
  ⟨⟨by decide, by decide, by decide, by decide⟩,
    C2_notes_never_overwritten listingRescraped storedRowCells cacheNotesOnly "abcd1234"
      (by decide) (by decide) (by decide) (by decide)⟩

/-- Witness for C3 at a concrete unprotected state: the detection flags
of the scraped-fact fields are all clear, and the second merge
reproduces the first. -/
theorem C3_witness :
    (detect_manual_changes (some emptyDB) listingBare.url listingBare).getD 2 false =
        false ∧
    (detect_manual_changes (some emptyDB) listingBare.url listingBare).getD 14 false =
        false ∧
    (mergeExisting listingBare
        (mergeExisting listingBare [] (some emptyDB) false).1
        (mergeExisting listingBare [] (some emptyDB) false).2 false).1 =
      (mergeExisting listingBare [] (some emptyDB) false).1 :=
  ⟨by decide, by decide,
    C3_stable_after_second_merge listingBare [] emptyDB (by decide)⟩

/-- Witness for C4 at the concrete scenario inputs. -/
theorem C4_witness :
    (2 : Nat) < 15 ∧
    (mergeExisting listingRescraped storedRowCells (some emptyDB) true).1.getD 2 none =
      some (listingRescraped.to_sheet_row.getD 2 "") :=
  ⟨by decide,
    (C4_force_reset_scope listingRescraped storedRowCells (some emptyDB)).2.1 2 (by decide)⟩

/-- Witness for C5 at the concrete failed-fetch row. -/
theorem C5_witness :
    sheetRowFailed.length = 17 ∧ sheetRowFailed.getD 1 "" ≠ "" ∧
    sheetRowFailed.getD 16 "" ≠ "" ∧ sheetRowFailed.getD 16 "" ≠ "Pending Review" ∧
    (rescrapeFailedStep sheetRowFailed (some emptyDB) false
        "2024-02-01T00:00:00").1.getD 16 none = some (sheetRowFailed.getD 16 "") :=
  ⟨by decide, by decide, by decide, by decide,
    (C5_failed_fetch_scope sheetRowFailed (some emptyDB) "2024-02-01T00:00:00"
      (by decide) (by decide)).2.2.1 (by decide) (by decide)⟩

/-- Witness for C6 at a concrete listing with an absent price. -/
theorem C6_witness :
    listingBare.price = none ∧ listingBare.to_hash_row.getD 2 "x" = "" :=
  ⟨rfl, (C6_empty_hash_scope listingBare emptyDB "u").1 rfl⟩

/-- Witness for C7 at concrete store contents. -/
theorem C7_witness :
    getHash (set_field_hash (some emptyDB) "a" "price" "deadbeef") "a" "price" =
      (if ("deadbeef" : String) = "" then none else some "deadbeef") ∧
    getHash (set_field_hash (some emptyDB) "a" "price" "deadbeef") "b" "beds" =
      getHash (some emptyDB) "b" "beds" ∧
    getHash (clear_field_hashes (some emptyDB) "a") "a" "price" = none ∧
    getHash (clear_field_hashes (some emptyDB) "a") "b" "beds" =
      getHash (some emptyDB) "b" "beds" ∧
    getHash (clear_specific_field_hashes (some emptyDB) "a" ["price"]) "a" "price" =
      (if ("price" : String) ∈ ["price"] then none else emptyDB "a" "price") ∧
    getHash (clear_specific_field_hashes (some emptyDB) "a" ["price"]) "b" "beds" =
      emptyDB "b" "beds" :=
  ⟨(C7_fact_cache_operations emptyDB "a" "b" "price" "beds" "deadbeef" ["price"]).1,
    (C7_fact_cache_operations emptyDB "a" "b" "price" "beds" "deadbeef" ["price"]).2.1
      (by decide),
    (C7_fact_cache_operations emptyDB "a" "b" "price" "beds" "deadbeef" ["price"]).2.2.1,
    (C7_fact_cache_operations emptyDB "a" "b" "price" "beds" "deadbeef" ["price"]).2.2.2.1
      (by decide),
    (C7_fact_cache_operations emptyDB "a" "b" "price" "beds" "deadbeef" ["price"]).2.2.2.2.1,
    (C7_fact_cache_operations emptyDB "a" "b" "price" "beds" "deadbeef" ["price"]).2.2.2.2.2
      (by decide)⟩

/-- Witness for C9 at the concrete invalid-decision row. -/
theorem C9_witness :
    16 < sheetRowInvalidDecision.length ∧ 2 ≤ sheetRowInvalidDecision.length ∧
    sheetRowInvalidDecision.getD 0 "" ≠ "" ∧ sheetRowInvalidDecision.getD 1 "" ≠ "" ∧
    ("Maybe" : String) ∉ RentalListing.decision_options ∧
    validate_decision_value (some "Maybe") = "Pending Review" ∧
    (parseListingRow sheetRowInvalidDecision).map RentalListing.decision =
      some (some (sheetRowInvalidDecision.getD 16 "")) :=
  ⟨by decide, by decide, by decide, by decide, by decide,
    C9_decision_normalization_scope.2.1 "Maybe" (by decide),
    C9_decision_normalization_scope.2.2.2 sheetRowInvalidDecision (by decide) (by decide)
      (by decide) (by decide)⟩

end OregonTrail
